import Mathlib

/-!
Shallow embedding of `src/lib/dialog/dialog-ref.ts` (class `MatDialogRef`):
the dialog lifecycle handle of the material2 dialog module.  Pure parts
(id generation, position/size strategy calls) are embedded as functions;
the event-driven lifecycle (rxjs subjects, `take(1)`/`filter` subscriptions)
is embedded as an explicit state machine driven by a list of events.
-/

namespace DialogRef

/-! ### Dialog id generation

The source keeps a module-level counter `let uniqueId = 0` and the
constructor's default parameter is ``id: string = `mat-dialog-${uniqueId++}` ``.
The template literal renders the counter in decimal.  `jsNatToString` embeds
that decimal rendering with a fuel-based structural recursion so that it is
kernel-computable. -/

/-- Little-endian decimal digits of `n`; `fuel ≥ n` suffices. -/
def toDigitsRev (fuel n : Nat) : List Nat :=
  match fuel with
  | 0 => []
  | f + 1 => if n = 0 then [] else (n % 10) :: toDigitsRev f (n / 10)

/-- Decode little-endian decimal digits back to a number. -/
def ofDigitsRev : List Nat → Nat
  | [] => 0
  | d :: ds => d + 10 * ofDigitsRev ds

/-- Decimal rendering of a natural number, as the JS template literal does. -/
def jsNatToString (n : Nat) : String :=
  if n = 0 then "0" else ⟨((toDigitsRev n n).map Nat.digitChar).reverse⟩

/-- Inverse of `Nat.digitChar` on decimal digits. -/
def charToDigit (c : Char) : Nat := c.toNat - 48

/-- Decode a decimal string. -/
def parseDecimal (s : String) : Nat := ofDigitsRev (s.data.reverse.map charToDigit)

/-- The default id assigned by the constructor at counter value `n`:
`` `mat-dialog-${n}` ``. -/
def mkDialogId (n : Nat) : String := "mat-dialog-" ++ jsNatToString n

/-- Constructing a `MatDialogRef` with counter `uniqueId` and an optional
explicit id override, following the default-parameter
``id: string = `mat-dialog-${uniqueId++}` ``: returns the assigned id and
the counter after construction (the counter advances only when the default
is used). -/
def newDialogRefId (uniqueId : Nat) (idOverride : Option String) : String × Nat :=
  match idOverride with
  | some i => (i, uniqueId)
  | none => (mkDialogId uniqueId, uniqueId + 1)

/-- Ids (paired with the counter value consumed) assigned by `n` successive
default constructions starting at counter `c`. -/
def constructSeqFull : Nat → Nat → List (String × Nat)
  | _, 0 => []
  | c, k + 1 =>
    let p := newDialogRefId c none
    (p.1, c) :: constructSeqFull p.2 k

/-- Ids assigned by `n` successive default constructions starting at counter `c`. -/
def constructSeq (c n : Nat) : List String := (constructSeqFull c n).map Prod.fst

theorem mem_toDigitsRev_lt {fuel n d : Nat} (h : d ∈ toDigitsRev fuel n) : d < 10 := by
  induction fuel generalizing n with
  | zero => simp [toDigitsRev] at h
  | succ f ih =>
    unfold toDigitsRev at h
    by_cases h0 : n = 0
    · simp [h0] at h
    · simp [h0] at h
      rcases h with h | h
      · omega
      · exact ih h

theorem ofDigitsRev_toDigitsRev {fuel n : Nat} (h : n ≤ fuel) :
    ofDigitsRev (toDigitsRev fuel n) = n := by
  induction fuel generalizing n with
  | zero => unfold toDigitsRev ofDigitsRev; omega
  | succ f ih =>
    unfold toDigitsRev
    by_cases h0 : n = 0
    · simp [h0, ofDigitsRev]
    · have hdiv : n / 10 ≤ f := by
        have := Nat.div_lt_self (Nat.pos_of_ne_zero h0) (by norm_num : 1 < 10)
        omega
      simp only [h0, if_false, ofDigitsRev, ih hdiv]
      omega

theorem charToDigit_digitChar {d : Nat} (h : d < 10) :
    charToDigit (Nat.digitChar d) = d := by
  interval_cases d <;> rfl

theorem parseDecimal_jsNatToString (n : Nat) : parseDecimal (jsNatToString n) = n := by
  by_cases h0 : n = 0
  · subst h0; rfl
  · unfold jsNatToString parseDecimal
    simp only [h0, if_false]
    show ofDigitsRev (((toDigitsRev n n).map Nat.digitChar).reverse.reverse.map charToDigit) = n
    rw [List.reverse_reverse, List.map_map]
    have hmap : ∀ l : List Nat, (∀ d ∈ l, d < 10) →
        l.map (charToDigit ∘ Nat.digitChar) = l := by
      intro l hl
      induction l with
      | nil => rfl
      | cons d ds ih =>
        simp only [List.map_cons, List.cons.injEq]
        exact ⟨charToDigit_digitChar (hl d (by simp)),
          ih fun x hx => hl x (by simp [hx])⟩
    rw [hmap _ fun d hd => mem_toDigitsRev_lt hd]
    exact ofDigitsRev_toDigitsRev (Nat.le_refl n)

theorem jsNatToString_injective : Function.Injective jsNatToString :=
  Function.LeftInverse.injective parseDecimal_jsNatToString

theorem mkDialogId_injective : Function.Injective mkDialogId := by
  intro m n h
  unfold mkDialogId at h
  have hdata : ("mat-dialog-" ++ jsNatToString m).data
      = ("mat-dialog-" ++ jsNatToString n).data := by rw [h]
  rw [String.data_append, String.data_append] at hdata
  have : (jsNatToString m).data = (jsNatToString n).data :=
    List.append_cancel_left hdata
  exact jsNatToString_injective (String.ext this)

/-! ### Position and size updates

`updatePosition` / `updateSize` mutate the overlay's `GlobalPositionStrategy`
and then call `overlayRef.updatePosition()`.  The embedding records the calls
made on the strategy and the overlay as a trace.  JS truthiness on the
optional offset strings (`position.left ? … : …`) is `jsTruthy`: an absent
field and the empty string are both falsy. -/

/-- The `DialogPosition` interface: optional offset strings. -/
structure DialogPosition where
  top : Option String := none
  bottom : Option String := none
  left : Option String := none
  right : Option String := none

/-- JS truthiness of an optional string: `undefined` and `""` are falsy. -/
def jsTruthy : Option String → Bool
  | none => false
  | some s => !(s == "")

/-- One call made on the position strategy or the overlay. -/
inductive StrategyCall where
  | left (offset : Option String)
  | right (offset : Option String)
  | top (offset : Option String)
  | bottom (offset : Option String)
  | centerHorizontally
  | centerVertically
  | width (w : String)
  | height (h : String)
  | overlayUpdatePosition
  deriving DecidableEq, Repr

/-- Horizontal branch of `updatePosition`:
`if (position && (position.left || position.right)) position.left ?
strategy.left(position.left) : strategy.right(position.right);
else strategy.centerHorizontally()`. -/
def horizontalCalls (p : DialogPosition) : List StrategyCall :=
  if jsTruthy p.left || jsTruthy p.right then
    if jsTruthy p.left then [StrategyCall.left p.left] else [StrategyCall.right p.right]
  else [StrategyCall.centerHorizontally]

/-- Vertical branch of `updatePosition`, symmetric with `horizontalCalls`. -/
def verticalCalls (p : DialogPosition) : List StrategyCall :=
  if jsTruthy p.top || jsTruthy p.bottom then
    if jsTruthy p.top then [StrategyCall.top p.top] else [StrategyCall.bottom p.bottom]
  else [StrategyCall.centerVertically]

/-- The strategy/overlay call trace of `updatePosition(position?)`.  When the
`position` argument is absent both axes are centered; the overlay's
`updatePosition()` is always called last. -/
def updatePositionCalls (pos : Option DialogPosition) : List StrategyCall :=
  (match pos with
   | some p => horizontalCalls p ++ verticalCalls p
   | none => [StrategyCall.centerHorizontally, StrategyCall.centerVertically])
  ++ [StrategyCall.overlayUpdatePosition]

/-- The strategy/overlay call trace of `updateSize(width, height)`:
`this._getPositionStrategy().width(width).height(height);
this._overlayRef.updatePosition();`. -/
def updateSizeCalls (width : String := "auto") (height : String := "auto") :
    List StrategyCall :=
  [StrategyCall.width width, StrategyCall.height height,
   StrategyCall.overlayUpdatePosition]

/-! ### Lifecycle state machine

The constructor wires four subscriptions (enter-done, exit-done, escape
keydown, navigation) and `close` adds a `take(1)` subscription on
`phaseName === 'start'`.  The embedding is a step function over a state
that mirrors the fields of `MatDialogRef` plus the observable effects on
its collaborators (overlay disposal, backdrop detach, subject emissions).
`R` is the dialog result type, `T` the component type. -/

/-- `ESCAPE` from `@angular/cdk/keycodes`. -/
def ESCAPE : Nat := 27

/-- The container's `_config` fields read by `MatDialogRef`
(`disableClose`, `closeOnNavigation`); both optional booleans. -/
structure DialogConfig where
  disableClose : Option Bool := none
  closeOnNavigation : Option Bool := none

/-- External stimuli delivered to the handle: animation-state events
(`phaseName`, `toState`), keydown events on the overlay, navigation
changes, user calls of `close`, and external writes to the mutable public
fields `disableClose` and `componentInstance`. -/
inductive Ev (R T : Type) where
  | anim (phaseName toState : String)
  | keydown (keyCode : Nat)
  | navigate
  | closeCall (result : Option R)
  | setDisableClose (b : Option Bool)
  | setComponentInstance (t : Option T)

/-- State of a `MatDialogRef` together with the observable effects on its
collaborators.  `pendingStartSubs` holds, in subscription order, the
`dialogResult` captured by each live `take(1)` subscription that `close`
registered on `filter(event.phaseName === 'start')`. -/
structure State (R T : Type) where
  id : String
  disableClose : Option Bool
  result : Option R
  componentInstance : Option T
  afterOpenDone : Bool
  afterOpenEmissions : Nat
  beforeCloseDone : Bool
  beforeCloseEmissions : List (Option R)
  afterClosedDone : Bool
  afterClosedEmissions : List (Option R)
  pendingStartSubs : List (Option R)
  overlayDisposed : Bool
  backdropDetached : Bool
  locationSubscribed : Bool
  exitAnimationStarts : Nat
  closeCalls : List (Option R)
  deriving Repr

namespace MatDialogRef

variable {R T : Type}

/-- Body of `close(dialogResult?)`: store the result, register a `take(1)`
subscription on the next `phaseName === 'start'` animation event, and call
`_containerInstance._startExitAnimation()`.  `closeCalls` records the
invocation. -/
def close (dialogResult : Option R) (s : State R T) : State R T :=
  { s with
    result := dialogResult
    pendingStartSubs := s.pendingStartSubs ++ [dialogResult]
    exitAnimationStarts := s.exitAnimationStarts + 1
    closeCalls := s.closeCalls ++ [dialogResult] }

/-- Delivery of one `_animationStateChanged` event to the subscriptions, in
subscription order: the constructor's enter-done `take(1)`, the
constructor's exit-done `take(1)`, then every pending start-filtered
`take(1)` registered by `close`.  A completed subject ignores `next`, so
only the first pending subscription's captured result is emitted on
`_beforeClose`; every pending subscription still calls `detachBackdrop`. -/
def animStep (s : State R T) (phaseName toState : String) : State R T :=
  let s1 :=
    if phaseName = "done" ∧ toState = "enter" ∧ s.afterOpenDone = false then
      { s with afterOpenEmissions := s.afterOpenEmissions + 1, afterOpenDone := true }
    else s
  let s2 :=
    if phaseName = "done" ∧ toState = "exit" ∧ s1.afterClosedDone = false then
      { s1 with
        overlayDisposed := true
        locationSubscribed := false
        afterClosedEmissions := s1.afterClosedEmissions ++ [s1.result]
        afterClosedDone := true
        componentInstance := none }
    else s1
  if phaseName = "start" then
    match s2.pendingStartSubs with
    | [] => s2
    | r :: _ =>
      { s2 with
        beforeCloseEmissions :=
          if s2.beforeCloseDone then s2.beforeCloseEmissions
          else s2.beforeCloseEmissions ++ [r]
        beforeCloseDone := true
        backdropDetached := true
        pendingStartSubs := [] }
  else s2

/-- One step of the handle: dispatch an external event to the subscriptions
wired in the constructor.  The keydown subscription filters
`event.keyCode === ESCAPE && !this.disableClose`; the navigation callback
closes when `_config.closeOnNavigation` is truthy and the location
subscription is still live. -/
def step (cfg : DialogConfig) (s : State R T) : Ev R T → State R T
  | Ev.anim phaseName toState => animStep s phaseName toState
  | Ev.keydown keyCode =>
    if keyCode = ESCAPE ∧ s.disableClose ≠ some true then close none s else s
  | Ev.navigate =>
    if s.locationSubscribed = true ∧ cfg.closeOnNavigation = some true then
      close none s
    else s
  | Ev.closeCall r => close r s
  | Ev.setDisableClose b => { s with disableClose := b }
  | Ev.setComponentInstance t => { s with componentInstance := t }

/-- State right after the constructor ran: `disableClose` copied from the
container's config, all channels open and empty, the location subscription
live iff a `Location` was supplied. -/
def initState (cfg : DialogConfig) (hasLocation : Bool) (id : String) : State R T :=
  { id := id
    disableClose := cfg.disableClose
    result := none
    componentInstance := none
    afterOpenDone := false
    afterOpenEmissions := 0
    beforeCloseDone := false
    beforeCloseEmissions := []
    afterClosedDone := false
    afterClosedEmissions := []
    pendingStartSubs := []
    overlayDisposed := false
    backdropDetached := false
    locationSubscribed := hasLocation
    exitAnimationStarts := 0
    closeCalls := [] }

/-- Run the handle on a list of external events. -/
def run (cfg : DialogConfig) (hasLocation : Bool) (id : String)
    (evs : List (Ev R T)) : State R T :=
  evs.foldl (step cfg) (initState cfg hasLocation id)

/-- `updatePosition(position?)`: returns `this` and the trace of strategy /
overlay calls it makes. -/
def updatePosition (self : State R T) (pos : Option DialogPosition) :
    State R T × List StrategyCall :=
  (self, updatePositionCalls pos)

/-- `updateSize(width = 'auto', height = 'auto')`: returns `this` and the
trace of strategy / overlay calls it makes. -/
def updateSize (self : State R T) (width : String := "auto")
    (height : String := "auto") : State R T × List StrategyCall :=
  (self, updateSizeCalls width height)

theorem animStep_afterOpen (s : State R T) (p t : String) :
    ((animStep s p t).afterOpenDone
        = (if p = "done" ∧ t = "enter" then true else s.afterOpenDone)) ∧
    ((animStep s p t).afterOpenEmissions
        = s.afterOpenEmissions
          + (if (p = "done" ∧ t = "enter") ∧ s.afterOpenDone = false
             then 1 else 0)) := by
  unfold animStep
  constructor <;> split <;> (try split) <;> (cases hps : s.pendingStartSubs) <;>
    simp_all [apply_ite]

end MatDialogRef

/-- Whether an event is the enter-animation-finished notification
(`phaseName === 'done' && toState === 'enter'`). -/
def IsEnterDone : Ev R T → Prop
  | Ev.anim phaseName toState => phaseName = "done" ∧ toState = "enter"
  | _ => False

instance : (e : Ev R T) → Decidable (IsEnterDone e)
  | Ev.anim p t => inferInstanceAs (Decidable (p = "done" ∧ t = "enter"))
  | Ev.keydown _ => inferInstanceAs (Decidable False)
  | Ev.navigate => inferInstanceAs (Decidable False)
  | Ev.closeCall _ => inferInstanceAs (Decidable False)
  | Ev.setDisableClose _ => inferInstanceAs (Decidable False)
  | Ev.setComponentInstance _ => inferInstanceAs (Decidable False)

namespace MatDialogRef

theorem step_afterOpen (cfg : DialogConfig) (s : State R T) (e : Ev R T) :
    ((step cfg s e).afterOpenDone
        = (if IsEnterDone e then true else s.afterOpenDone)) ∧
    ((step cfg s e).afterOpenEmissions
        = s.afterOpenEmissions
          + (if IsEnterDone e ∧ s.afterOpenDone = false then 1 else 0)) := by
  cases e with
  | anim p t => simpa [IsEnterDone, step] using animStep_afterOpen s p t
  | keydown k => simp only [step, IsEnterDone]; split <;> simp [close]
  | navigate => simp only [step, IsEnterDone]; split <;> simp [close]
  | closeCall r => simp [step, IsEnterDone, close]
  | setDisableClose b => simp [step, IsEnterDone]
  | setComponentInstance t0 => simp [step, IsEnterDone]

theorem foldl_afterOpen (cfg : DialogConfig) (evs : List (Ev R T)) :
    ∀ s : State R T,
    ((evs.foldl (step cfg) s).afterOpenDone
        = (if ∃ e ∈ evs, IsEnterDone e then true else s.afterOpenDone)) ∧
    ((evs.foldl (step cfg) s).afterOpenEmissions
        = s.afterOpenEmissions
          + (if (∃ e ∈ evs, IsEnterDone e) ∧ s.afterOpenDone = false
             then 1 else 0)) := by
  induction evs with
  | nil => intro s; simp
  | cons e evs ih =>
    intro s
    rw [List.foldl_cons]
    obtain ⟨ihd, ihe⟩ := ih (step cfg s e)
    obtain ⟨sd, se⟩ := step_afterOpen cfg s e
    rw [ihd, ihe, sd, se]
    constructor
    · split_ifs <;> first
      | (simp_all; done)
      | (simp_all; tauto)
    · split_ifs <;> first
      | (simp_all; done)
      | (simp_all; tauto)

end MatDialogRef


/-- Shared concrete configuration for witnesses: all config fields absent. -/
def cfg0 : DialogConfig := {}

/-- Configuration with `disableClose: false`. -/
def cfgDCfalse : DialogConfig := { disableClose := some false }

/-- Configuration with `disableClose: true`. -/
def cfgDCtrue : DialogConfig := { disableClose := some true }

namespace MatDialogRef
variable {R T : Type}

/-- C5: for every handle and every sequence of animation-state events, the
`afterOpen` channel emits exactly once when some event has phase `done` and
target state `enter` (and zero times otherwise); it emits only in reaction
to such an event (a non-matching event changes neither the emission count
nor the completion flag); and after its first emission the channel is
completed, so further matching events are ignored (the count stays 1). -/
theorem afterOpen_emits_exactly_once (cfg : DialogConfig) (hasLocation : Bool)
    (id : String) (evs : List (Ev R T)) :
    ((run cfg hasLocation id evs).afterOpenEmissions
        = if ∃ e ∈ evs, IsEnterDone e then 1 else 0) ∧
    ((run cfg hasLocation id evs).afterOpenDone
        = if ∃ e ∈ evs, IsEnterDone e then true else false) ∧
    (∀ (s : State R T) (e : Ev R T), ¬ IsEnterDone e →
      ((step cfg s e).afterOpenEmissions = s.afterOpenEmissions) ∧
      ((step cfg s e).afterOpenDone = s.afterOpenDone)) := by
  obtain ⟨hd, he⟩ := foldl_afterOpen cfg evs (initState cfg hasLocation id)
  refine ⟨?_, ?_, ?_⟩
  · rw [show run cfg hasLocation id evs
        = evs.foldl (step cfg) (initState cfg hasLocation id) from rfl, he]
    simp [initState]
  · rw [show run cfg hasLocation id evs
        = evs.foldl (step cfg) (initState cfg hasLocation id) from rfl, hd]
    simp [initState]
  · intro s e hne
    obtain ⟨sd, se⟩ := step_afterOpen cfg s e
    rw [sd, se]
    simp [hne]

/-- Witness for C5 at a concrete run: two enter-done events yield one
emission; a keydown event leaves the emission count unchanged. -/
theorem afterOpen_emits_exactly_once_witness :
    ((run cfg0 true "mat-dialog-0"
        [Ev.anim "done" "enter", Ev.anim "done" "enter"] :
          State Nat Unit).afterOpenEmissions = 1) ∧
    ((step cfg0 (initState cfg0 true "mat-dialog-0") (Ev.keydown 13) :
        State Nat Unit).afterOpenEmissions = 0) :=
  ⟨((afterOpen_emits_exactly_once cfg0 true "mat-dialog-0"
      [Ev.anim "done" "enter", Ev.anim "done" "enter"]).1).trans (by decide),
   (((afterOpen_emits_exactly_once cfg0 true "mat-dialog-0"
      ([] : List (Ev Nat Unit))).2.2 (initState cfg0 true "mat-dialog-0")
      (Ev.keydown 13) (by decide)).1).trans rfl⟩

/-- C6: the first animation event with phase `done` and target state `exit`
disposes the overlay, cancels the navigation-change subscription, emits the
stored result on the `afterClosed` channel and completes it, and clears
`componentInstance` to null. -/
theorem exitDone_effects (cfg : DialogConfig) (s : State R T)
    (h : s.afterClosedDone = false) :
    ((step cfg s (Ev.anim "done" "exit")).overlayDisposed = true) ∧
    ((step cfg s (Ev.anim "done" "exit")).locationSubscribed = false) ∧
    ((step cfg s (Ev.anim "done" "exit")).afterClosedEmissions
        = s.afterClosedEmissions ++ [s.result]) ∧
    ((step cfg s (Ev.anim "done" "exit")).afterClosedDone = true) ∧
    ((step cfg s (Ev.anim "done" "exit")).componentInstance = none) := by
  simp only [step]
  unfold animStep
  simp [h]

/-- Concrete pre-close state for the C6 witness: component instance set,
`close(2)` called, exit animation not yet finished. -/
def sPreExit : State Nat Unit :=
  run cfg0 true "mat-dialog-0"
    [Ev.setComponentInstance (some ()), Ev.closeCall (some 2)]

/-- Witness for C6: after `close(2)` and the exit-done event, the overlay is
disposed, the result 2 is emitted on `afterClosed`, and the component
reference is cleared. -/
theorem exitDone_effects_witness :
    ((step cfg0 sPreExit (Ev.anim "done" "exit")).overlayDisposed = true) ∧
    ((step cfg0 sPreExit (Ev.anim "done" "exit")).afterClosedEmissions
        = [some 2]) ∧
    ((step cfg0 sPreExit (Ev.anim "done" "exit")).componentInstance = none) :=
  ⟨(exitDone_effects cfg0 sPreExit (by decide)).1,
   ((exitDone_effects cfg0 sPreExit (by decide)).2.2.1).trans (by decide),
   (exitDone_effects cfg0 sPreExit (by decide)).2.2.2.2⟩

/-- C7: an escape keydown delivered while `disableClose` is `false` invokes
`close()` exactly once with no result (one invocation recorded, the stored
result becomes `undefined`, one exit-animation start is triggered); with
`disableClose` true, or for a non-escape key, the event has no effect. -/
theorem escape_closes (cfg : DialogConfig) (s : State R T) (k : Nat) :
    (s.disableClose = some false →
      ((step cfg s (Ev.keydown ESCAPE)).closeCalls = s.closeCalls ++ [none]) ∧
      ((step cfg s (Ev.keydown ESCAPE)).result = none) ∧
      ((step cfg s (Ev.keydown ESCAPE)).pendingStartSubs
          = s.pendingStartSubs ++ [none]) ∧
      ((step cfg s (Ev.keydown ESCAPE)).exitAnimationStarts
          = s.exitAnimationStarts + 1)) ∧
    (s.disableClose = some true → step cfg s (Ev.keydown k) = s) ∧
    (k ≠ ESCAPE → step cfg s (Ev.keydown k) = s) := by
  refine ⟨fun h => ?_, fun h => ?_, fun h => ?_⟩
  · simp [step, close, h]
  · simp [step, h]
  · simp [step, h]

/-- Witness for C7: with `disableClose: false` an escape keydown records one
`close()` invocation with no result; with `disableClose: true` the state is
unchanged; a non-escape key is ignored. -/
theorem escape_closes_witness :
    ((step cfgDCfalse (initState cfgDCfalse false "mat-dialog-0")
        (Ev.keydown ESCAPE) : State Nat Unit).closeCalls = [none]) ∧
    (step cfgDCtrue (initState cfgDCtrue false "mat-dialog-0")
        (Ev.keydown ESCAPE) = (initState cfgDCtrue false "mat-dialog-0" :
          State Nat Unit)) ∧
    (step cfgDCfalse (initState cfgDCfalse false "mat-dialog-0")
        (Ev.keydown 13) = (initState cfgDCfalse false "mat-dialog-0" :
          State Nat Unit)) :=
  ⟨(((escape_closes cfgDCfalse (initState cfgDCfalse false "mat-dialog-0")
      ESCAPE).1 (by decide)).1).trans (by decide),
   (escape_closes cfgDCtrue (initState cfgDCtrue false "mat-dialog-0")
      ESCAPE).2.1 (by decide),
   (escape_closes cfgDCfalse (initState cfgDCfalse false "mat-dialog-0")
      13).2.2 (by decide)⟩

end MatDialogRef


namespace MatDialogRef
variable {R T : Type}

theorem animStep_preserves (s : State R T) (p t : String) :
    ((animStep s p t).result = s.result) ∧
    ((animStep s p t).closeCalls = s.closeCalls) ∧
    ((animStep s p t).id = s.id) ∧
    ((animStep s p t).disableClose = s.disableClose) ∧
    ((animStep s p t).exitAnimationStarts = s.exitAnimationStarts) := by
  unfold animStep
  refine ⟨?_, ?_, ?_, ?_, ?_⟩ <;>
    (split <;> (try split) <;> (cases hps : s.pendingStartSubs) <;>
      simp_all [apply_ite])

/-- C2 counterexample: the subscription registered by `close` filters only on
`phaseName === 'start'`, not on `toState === 'exit'`: after `close(1)`, an
animation event with phase `start` and target state `enter` already fires
the `closing` notification and detaches the backdrop. -/
theorem close_start_filter_counterexample :
    ((run cfg0 true "mat-dialog-0"
        [Ev.closeCall (some 1), Ev.anim "start" "enter"] :
          State Nat Unit).beforeCloseEmissions = [some 1]) ∧
    ((run cfg0 true "mat-dialog-0"
        [Ev.closeCall (some 1), Ev.anim "start" "enter"] :
          State Nat Unit).backdropDetached = true) ∧
    ((run cfg0 true "mat-dialog-0"
        [Ev.closeCall (some 1), Ev.anim "start" "enter"] :
          State Nat Unit).beforeCloseDone = true) := by decide

/-- C2 amended: `close(r)` stores `r`, registers one subscription on the
animation-state stream filtering only for phase `start` (any target state),
and triggers the container's exit-animation start; on the next phase-`start`
event it emits `r` on the `closing` channel, completes that channel, and
detaches — but does not dispose — the overlay's backdrop. -/
theorem close_behavior (cfg : DialogConfig) (s : State R T) (r : Option R)
    (toState : String) (hsubs : s.pendingStartSubs = [])
    (hdone : s.beforeCloseDone = false) :
    ((step cfg s (Ev.closeCall r)).result = r) ∧
    ((step cfg s (Ev.closeCall r)).pendingStartSubs = [r]) ∧
    ((step cfg s (Ev.closeCall r)).exitAnimationStarts
        = s.exitAnimationStarts + 1) ∧
    ((step cfg s (Ev.closeCall r)).beforeCloseEmissions
        = s.beforeCloseEmissions) ∧
    ((step cfg s (Ev.closeCall r)).backdropDetached = s.backdropDetached) ∧
    ((step cfg (step cfg s (Ev.closeCall r))
        (Ev.anim "start" toState)).beforeCloseEmissions
        = s.beforeCloseEmissions ++ [r]) ∧
    ((step cfg (step cfg s (Ev.closeCall r))
        (Ev.anim "start" toState)).beforeCloseDone = true) ∧
    ((step cfg (step cfg s (Ev.closeCall r))
        (Ev.anim "start" toState)).backdropDetached = true) ∧
    ((step cfg (step cfg s (Ev.closeCall r))
        (Ev.anim "start" toState)).overlayDisposed = s.overlayDisposed) ∧
    ((step cfg (step cfg s (Ev.closeCall r))
        (Ev.anim "start" toState)).pendingStartSubs = []) := by
  simp only [step, close]
  unfold animStep
  simp [hsubs, hdone]

/-- Witness for C2 amended: from the freshly constructed state, `close(5)`
then a `(start, exit)` event emits 5 on the closing channel and detaches
the backdrop without disposing the overlay. -/
theorem close_behavior_witness :
    ((step cfg0 (initState cfg0 true "mat-dialog-0") (Ev.closeCall (some 5)) :
        State Nat Unit).result = some 5) ∧
    ((step cfg0 (step cfg0 (initState cfg0 true "mat-dialog-0")
        (Ev.closeCall (some 5))) (Ev.anim "start" "exit") :
          State Nat Unit).beforeCloseEmissions = [some 5]) ∧
    ((step cfg0 (step cfg0 (initState cfg0 true "mat-dialog-0")
        (Ev.closeCall (some 5))) (Ev.anim "start" "exit") :
          State Nat Unit).backdropDetached = true) ∧
    ((step cfg0 (step cfg0 (initState cfg0 true "mat-dialog-0")
        (Ev.closeCall (some 5))) (Ev.anim "start" "exit") :
          State Nat Unit).overlayDisposed = false) :=
  ⟨(close_behavior cfg0 (initState cfg0 true "mat-dialog-0") (some 5) "exit"
      rfl rfl).1,
   ((close_behavior cfg0 (initState cfg0 true "mat-dialog-0") (some 5) "exit"
      rfl rfl).2.2.2.2.2.1).trans (by decide),
   (close_behavior cfg0 (initState cfg0 true "mat-dialog-0") (some 5) "exit"
      rfl rfl).2.2.2.2.2.2.2.1,
   ((close_behavior cfg0 (initState cfg0 true "mat-dialog-0") (some 5) "exit"
      rfl rfl).2.2.2.2.2.2.2.2.1).trans rfl⟩

/-- C3 counterexample: a second `close` before close completion overwrites
the stored result: after `close(1)` the result is 1 and the `closed`
channel has not fired; a further `close(2)` changes the stored result to 2,
and `afterClosed` later emits 2, not the first-written 1. -/
theorem result_overwrite_counterexample :
    ((run cfg0 true "mat-dialog-0" [Ev.closeCall (some 1)] :
        State Nat Unit).result = some 1) ∧
    ((run cfg0 true "mat-dialog-0" [Ev.closeCall (some 1)] :
        State Nat Unit).afterClosedEmissions = []) ∧
    ((run cfg0 true "mat-dialog-0"
        [Ev.closeCall (some 1), Ev.closeCall (some 2)] :
          State Nat Unit).result = some 2) ∧
    ((run cfg0 true "mat-dialog-0"
        [Ev.closeCall (some 1), Ev.closeCall (some 2)] :
          State Nat Unit).afterClosedEmissions = []) ∧
    ((run cfg0 true "mat-dialog-0" [Ev.closeCall (some 1),
        Ev.closeCall (some 2), Ev.anim "done" "exit"] :
          State Nat Unit).afterClosedEmissions = [some 2]) := by decide

/-- C3 amended: the stored result is written only by `close` invocations
(each storing that invocation's argument, later invocations overwriting
earlier ones); every other event leaves it unchanged; and the value emitted
on `afterClosed` at the exit-done event is the result stored at that
moment. -/
theorem result_changes_only_via_close (cfg : DialogConfig) (s : State R T)
    (e : Ev R T) :
    (((step cfg s e).result = s.result
        ∧ (step cfg s e).closeCalls = s.closeCalls)
      ∨ (∃ r, (step cfg s e).result = r
          ∧ (step cfg s e).closeCalls = s.closeCalls ++ [r])) ∧
    (s.afterClosedDone = false →
      (step cfg s (Ev.anim "done" "exit")).afterClosedEmissions
        = s.afterClosedEmissions ++ [s.result]) := by
  constructor
  · cases e with
    | anim p t =>
      exact Or.inl ⟨(animStep_preserves s p t).1, (animStep_preserves s p t).2.1⟩
    | keydown k =>
      simp only [step]
      split
      · exact Or.inr ⟨none, rfl, rfl⟩
      · exact Or.inl ⟨rfl, rfl⟩
    | navigate =>
      simp only [step]
      split
      · exact Or.inr ⟨none, rfl, rfl⟩
      · exact Or.inl ⟨rfl, rfl⟩
    | closeCall r => exact Or.inr ⟨r, rfl, rfl⟩
    | setDisableClose b => exact Or.inl ⟨rfl, rfl⟩
    | setComponentInstance t0 => exact Or.inl ⟨rfl, rfl⟩
  · intro h
    simp only [step]
    unfold animStep
    simp [h]

/-- Witness for C3 amended: after `close(2)`, the exit-done event emits the
stored result 2 on `afterClosed`. -/
theorem result_changes_only_via_close_witness :
    (step cfg0 sPreExit (Ev.anim "done" "exit")).afterClosedEmissions
      = [some 2] :=
  ((result_changes_only_via_close cfg0 sPreExit
      (Ev.anim "done" "exit")).2 (by decide)).trans (by decide)

end MatDialogRef



theorem constructSeq_eq (c n : Nat) :
    constructSeq c n = (List.range n).map (fun i => mkDialogId (c + i)) := by
  induction n generalizing c with
  | zero => rfl
  | succ k ih =>
    show mkDialogId c :: constructSeq (c + 1) k = _
    rw [ih, List.range_succ_eq_map]
    simp only [List.map_cons, List.map_map, Nat.add_zero]
    congr 1
    apply List.map_congr_left
    intro i _
    simp only [Function.comp_apply]
    congr 1
    omega

/-- C1 counterexample: the first handle constructed with a default id in a
fresh process has id `"mat-dialog-0"`, not `"dialog-0"`. -/
theorem default_id_counterexample :
    ((newDialogRefId 0 none).1 = "mat-dialog-0") ∧
    ((newDialogRefId 0 none).1 ≠ "dialog-0") := by decide

/-- C1 amended: every handle constructed without an explicit id override
gets an id of the form `"mat-dialog-<n>"`, `<n>` being the process-wide
counter, which starts at 0 and increments by one on each default
assignment; the first default-assigned handle has id `"mat-dialog-0"`. -/
theorem default_id_format (n : Nat) :
    ((newDialogRefId n none).1 = "mat-dialog-" ++ jsNatToString n) ∧
    ((newDialogRefId n none).2 = n + 1) ∧
    (constructSeq 0 n
        = (List.range n).map (fun i => "mat-dialog-" ++ jsNatToString i)) ∧
    (0 < n → (constructSeq 0 n).head? = some "mat-dialog-0") := by
  refine ⟨rfl, rfl, ?_, ?_⟩
  · rw [constructSeq_eq]
    apply List.map_congr_left
    intro i _
    simp [mkDialogId]
  · intro hn
    rw [constructSeq_eq]
    cases n with
    | zero => omega
    | succ k =>
      rw [List.range_succ_eq_map]
      simp only [List.map_cons, List.head?_cons, Nat.add_zero]
      decide

/-- Witness for C1 amended: three default constructions from a fresh
process yield the ids mat-dialog-0, 1, 2, and the first is
`"mat-dialog-0"`. -/
theorem default_id_format_witness :
    ((newDialogRefId 3 none).2 = 4) ∧
    ((constructSeq 0 3).head? = some "mat-dialog-0") :=
  ⟨(default_id_format 3).2.1, (default_id_format 3).2.2.2 (by decide)⟩

theorem mem_constructSeqFull {c n : Nat} {x : String × Nat}
    (h : x ∈ constructSeqFull c n) : c ≤ x.2 ∧ x.1 = mkDialogId x.2 := by
  induction n generalizing c with
  | zero => simp [constructSeqFull] at h
  | succ k ih =>
    rw [show constructSeqFull c (k + 1)
        = (mkDialogId c, c) :: constructSeqFull (c + 1) k from rfl] at h
    rcases List.mem_cons.mp h with h | h
    · subst h; exact ⟨Nat.le_refl c, rfl⟩
    · obtain ⟨h1, h2⟩ := ih h
      exact ⟨by omega, h2⟩

/-- C4: ids assigned in sequence within one process run are pairwise
distinct, the underlying counter values are strictly increasing in
assignment order, and a handle's id is never changed by any event the
handle reacts to. -/
theorem ids_distinct_and_immutable :
    (∀ c n, List.Pairwise
        (fun a b : String × Nat => a.1 ≠ b.1 ∧ a.2 < b.2)
        (constructSeqFull c n)) ∧
    (∀ (R T : Type) (cfg : DialogConfig) (s : State R T)
        (e : Ev R T), (MatDialogRef.step cfg s e).id = s.id) := by
  constructor
  · intro c n
    induction n generalizing c with
    | zero => exact List.Pairwise.nil
    | succ k ih =>
      refine List.Pairwise.cons ?_ (ih (c + 1))
      intro b hb
      have hb' : b ∈ constructSeqFull (c + 1) k := hb
      obtain ⟨h1, h2⟩ := mem_constructSeqFull hb'
      refine ⟨?_, show c < b.2 by omega⟩
      show mkDialogId c ≠ b.1
      rw [h2]
      intro hid
      have hc := mkDialogId_injective hid
      omega
  · intro R T cfg s e
    cases e with
    | anim p t => exact (MatDialogRef.animStep_preserves s p t).2.2.1
    | keydown k =>
      simp only [MatDialogRef.step]
      split <;> rfl
    | navigate =>
      simp only [MatDialogRef.step]
      split <;> rfl
    | closeCall r => rfl
    | setDisableClose b => rfl
    | setComponentInstance t0 => rfl




theorem overlayUpdate_notMem_horizontalCalls (p : DialogPosition) :
    StrategyCall.overlayUpdatePosition ∉ horizontalCalls p := by
  unfold horizontalCalls
  split <;> (try split) <;> simp

theorem overlayUpdate_notMem_verticalCalls (p : DialogPosition) :
    StrategyCall.overlayUpdatePosition ∉ verticalCalls p := by
  unfold verticalCalls
  split <;> (try split) <;> simp

theorem centerH_notMem_verticalCalls (p : DialogPosition) :
    StrategyCall.centerHorizontally ∉ verticalCalls p := by
  unfold verticalCalls
  split <;> (try split) <;> simp

theorem centerV_notMem_horizontalCalls (p : DialogPosition) :
    StrategyCall.centerVertically ∉ horizontalCalls p := by
  unfold horizontalCalls
  split <;> (try split) <;> simp

/-- C8: `updatePosition(position)` anchors the horizontal axis at the left
edge when `position.left` is given (truthy), else at the right edge when
`position.right` is given, and otherwise centers horizontally — when an
edge is anchored no horizontal-centering call is made; the vertical axis is
handled symmetrically; the overlay position recomputation is triggered
exactly once, as the last call; and the method returns the same handle. -/
theorem updatePosition_spec {R T : Type} (self : State R T)
    (p : DialogPosition) :
    ((MatDialogRef.updatePosition self (some p)).1 = self) ∧
    ((MatDialogRef.updatePosition self (some p)).2
        = horizontalCalls p ++ verticalCalls p
          ++ [StrategyCall.overlayUpdatePosition]) ∧
    (jsTruthy p.left = true → horizontalCalls p = [StrategyCall.left p.left]) ∧
    (jsTruthy p.left = false → jsTruthy p.right = true →
      horizontalCalls p = [StrategyCall.right p.right]) ∧
    (jsTruthy p.left = false → jsTruthy p.right = false →
      horizontalCalls p = [StrategyCall.centerHorizontally]) ∧
    (jsTruthy p.left = true ∨ jsTruthy p.right = true →
      StrategyCall.centerHorizontally
        ∉ (MatDialogRef.updatePosition self (some p)).2) ∧
    (jsTruthy p.top = true → verticalCalls p = [StrategyCall.top p.top]) ∧
    (jsTruthy p.top = false → jsTruthy p.bottom = true →
      verticalCalls p = [StrategyCall.bottom p.bottom]) ∧
    (jsTruthy p.top = false → jsTruthy p.bottom = false →
      verticalCalls p = [StrategyCall.centerVertically]) ∧
    (jsTruthy p.top = true ∨ jsTruthy p.bottom = true →
      StrategyCall.centerVertically
        ∉ (MatDialogRef.updatePosition self (some p)).2) ∧
    ((MatDialogRef.updatePosition self (some p)).2.count
        StrategyCall.overlayUpdatePosition = 1) ∧
    ((MatDialogRef.updatePosition self (some p)).2.getLast?
        = some StrategyCall.overlayUpdatePosition) := by
  refine ⟨rfl, rfl, ?_, ?_, ?_, ?_, ?_, ?_, ?_, ?_, ?_, ?_⟩
  · intro h; simp [horizontalCalls, h]
  · intro h1 h2; simp [horizontalCalls, h1, h2]
  · intro h1 h2; simp [horizontalCalls, h1, h2]
  · intro h
    show StrategyCall.centerHorizontally
      ∉ horizontalCalls p ++ verticalCalls p
        ++ [StrategyCall.overlayUpdatePosition]
    simp only [List.mem_append, List.mem_singleton]
    push_neg
    refine ⟨⟨?_, fun hc => absurd hc (centerH_notMem_verticalCalls p)⟩, by simp⟩
    unfold horizontalCalls
    rcases h with h | h
    · simp [h]
    · cases hl : jsTruthy p.left <;> simp [h, hl]
  · intro h; simp [verticalCalls, h]
  · intro h1 h2; simp [verticalCalls, h1, h2]
  · intro h1 h2; simp [verticalCalls, h1, h2]
  · intro h
    show StrategyCall.centerVertically
      ∉ horizontalCalls p ++ verticalCalls p
        ++ [StrategyCall.overlayUpdatePosition]
    simp only [List.mem_append, List.mem_singleton]
    push_neg
    refine ⟨⟨fun hc => absurd hc (centerV_notMem_horizontalCalls p), ?_⟩, by simp⟩
    unfold verticalCalls
    rcases h with h | h
    · simp [h]
    · cases hl : jsTruthy p.top <;> simp [h, hl]
  · show (horizontalCalls p ++ verticalCalls p
        ++ [StrategyCall.overlayUpdatePosition]).count
        StrategyCall.overlayUpdatePosition = 1
    rw [List.count_append, List.count_append,
      List.count_eq_zero.mpr (overlayUpdate_notMem_horizontalCalls p),
      List.count_eq_zero.mpr (overlayUpdate_notMem_verticalCalls p)]
    rfl
  · show (horizontalCalls p ++ verticalCalls p
        ++ [StrategyCall.overlayUpdatePosition]).getLast?
        = some StrategyCall.overlayUpdatePosition
    rw [List.getLast?_append]
    rfl

/-- Witness for C8 at `updatePosition({left: '10px'})`: the trace is a left
anchor, vertical centering, then one overlay recomputation; no horizontal
centering occurs. -/
theorem updatePosition_spec_witness :
    ((MatDialogRef.updatePosition
        (MatDialogRef.initState cfg0 false "mat-dialog-0" : State Nat Unit)
        (some { left := some "10px" })).2
      = [StrategyCall.left (some "10px"), StrategyCall.centerVertically,
         StrategyCall.overlayUpdatePosition]) ∧
    (StrategyCall.centerHorizontally
      ∉ (MatDialogRef.updatePosition
        (MatDialogRef.initState cfg0 false "mat-dialog-0" : State Nat Unit)
        (some { left := some "10px" })).2) :=
  ⟨((updatePosition_spec
      (MatDialogRef.initState cfg0 false "mat-dialog-0" : State Nat Unit)
      { left := some "10px" }).2.1).trans (by decide),
   (updatePosition_spec
      (MatDialogRef.initState cfg0 false "mat-dialog-0" : State Nat Unit)
      { left := some "10px" }).2.2.2.2.2.1 (Or.inl (by decide))⟩

/-- C9: `updateSize(w, h)` (defaults `'auto'`) sets the width and the height
on the position strategy, triggers exactly one overlay position
recomputation, and returns the same handle. -/
theorem updateSize_spec {R T : Type} (self : State R T)
    (w h : String) :
    ((MatDialogRef.updateSize self w h).1 = self) ∧
    ((MatDialogRef.updateSize self w h).2
        = [StrategyCall.width w, StrategyCall.height h,
           StrategyCall.overlayUpdatePosition]) ∧
    ((MatDialogRef.updateSize self w h).2.count
        StrategyCall.overlayUpdatePosition = 1) ∧
    ((MatDialogRef.updateSize self).2
        = [StrategyCall.width "auto", StrategyCall.height "auto",
           StrategyCall.overlayUpdatePosition]) := by
  refine ⟨rfl, rfl, ?_, rfl⟩
  show ([StrategyCall.width w, StrategyCall.height h,
    StrategyCall.overlayUpdatePosition]).count StrategyCall.overlayUpdatePosition = 1
  rw [List.count_cons_of_ne (by simp), List.count_cons_of_ne (by simp)]
  rfl

/-- C10: a falsy (empty-string) offset never anchors an edge: with
`position.left === ''` the left anchor is not applied — the right edge is
used when `position.right` is truthy, otherwise the axis is centered — and
likewise for `position.top` on the vertical axis. -/
theorem emptyString_offset_ignored (p : DialogPosition) :
    (p.left = some "" →
      (∀ o, StrategyCall.left o ∉ horizontalCalls p) ∧
      (jsTruthy p.right = true → horizontalCalls p = [StrategyCall.right p.right]) ∧
      (jsTruthy p.right = false →
        horizontalCalls p = [StrategyCall.centerHorizontally])) ∧
    (p.top = some "" →
      (∀ o, StrategyCall.top o ∉ verticalCalls p) ∧
      (jsTruthy p.bottom = true → verticalCalls p = [StrategyCall.bottom p.bottom]) ∧
      (jsTruthy p.bottom = false →
        verticalCalls p = [StrategyCall.centerVertically])) := by
  constructor
  · intro hleft
    have hl : jsTruthy p.left = false := by rw [hleft]; rfl
    refine ⟨?_, fun h => by simp [horizontalCalls, hl, h],
      fun h => by simp [horizontalCalls, hl, h]⟩
    intro o
    unfold horizontalCalls
    cases hr : jsTruthy p.right <;> simp [hl, hr]
  · intro htop
    have ht : jsTruthy p.top = false := by rw [htop]; rfl
    refine ⟨?_, fun h => by simp [verticalCalls, ht, h],
      fun h => by simp [verticalCalls, ht, h]⟩
    intro o
    unfold verticalCalls
    cases hb : jsTruthy p.bottom <;> simp [ht, hb]

/-- Witness for C10 at `{left: '', right: '5px', top: ''}`: the right edge is
anchored and the vertical axis is centered; no left or top anchor appears. -/
theorem emptyString_offset_ignored_witness :
    (horizontalCalls { left := some "", right := some "5px", top := some "" }
        = [StrategyCall.right (some "5px")]) ∧
    (verticalCalls { left := some "", right := some "5px", top := some "" }
        = [StrategyCall.centerVertically]) ∧
    (StrategyCall.left (some "")
        ∉ horizontalCalls { left := some "", right := some "5px", top := some "" }) :=
  ⟨((emptyString_offset_ignored
      { left := some "", right := some "5px", top := some "" }).1 rfl).2.1 (by decide),
   ((emptyString_offset_ignored
      { left := some "", right := some "5px", top := some "" }).2 rfl).2.2 (by decide),
   ((emptyString_offset_ignored
      { left := some "", right := some "5px", top := some "" }).1 rfl).1 (some "")⟩



end DialogRef
